import Mathlib

/-!
Shallow embedding of the Active Stamina Bar prototype.

Variant A is src/App.tsx: a single bar with an exhaustion ceiling, a fixed
recovery rate for the action quantity, and a reset that also clears the
frame-clock baseline (the previousTime ref).

Variant B is src/unnamed/part_000: a dual bar whose ceiling (named max)
decays and whose recovery rate is configurable; its resetStamina touches only
the stamina pair and leaves the previousTime ref alone.

Real-valued arithmetic of the source (JS numbers) is modelled over the
rationals; timestamps are rationals in milliseconds as supplied by the host
animation-frame scheduler.
-/

/-- Elapsed seconds between two frames, as computed at src/App.tsx line 103
and src/unnamed/part_000 line 100: the raw difference divided by 1000, with
no clamp of any kind. -/
def deltaTimeOf (currentTime previousTimeVal : ℚ) : ℚ :=
  (currentTime - previousTimeVal) / 1000

namespace VariantA

/-- CAP constant, src/App.tsx line 3. -/
def TOTAL_STAMINA : ℚ := 100

/-- Fixed 2 units per second recovery for the action bar, src/App.tsx line 4. -/
def ACTION_STAMINA_RECOVERY_RATE : ℚ := 2

/-- StaminaState, src/App.tsx lines 7 to 10. -/
structure StaminaState where
  exhaustion : ℚ
  action : ℚ
deriving DecidableEq, Repr

/-- ConfigState, src/App.tsx lines 12 to 15. -/
structure ConfigState where
  exhaustionDecay : ℚ
  actionStaminaDecay : ℚ
deriving DecidableEq, Repr

/-- The two slider names wired to handleConfigChange in variant A. -/
inductive ParamName where
  | exhaustionDecay
  | actionStaminaDecay
deriving DecidableEq, Repr

/-- Read one configuration field by its slider name. -/
def getParam : ParamName → ConfigState → ℚ
  | ParamName.exhaustionDecay, c => c.exhaustionDecay
  | ParamName.actionStaminaDecay, c => c.actionStaminaDecay

/-- The spread-with-one-computed-key update of src/App.tsx lines 65 to 68:
only the named field is replaced. -/
def setParameter : ParamName → ℚ → ConfigState → ConfigState
  | ParamName.exhaustionDecay, v, c => { c with exhaustionDecay := v }
  | ParamName.actionStaminaDecay, v, c => { c with actionStaminaDecay := v }

/-- The whole mutable state of the App component in variant A: the stamina
pair, the space-bar flag, the slider configuration and the previousTime ref. -/
structure AppState where
  stamina : StaminaState
  isSpacePressed : Bool
  config : ConfigState
  previousTime : Option ℚ
deriving DecidableEq, Repr

/-- Initial component state, src/App.tsx lines 48 to 56. -/
def initialState : AppState :=
  { stamina := { exhaustion := TOTAL_STAMINA, action := TOTAL_STAMINA }
    isSpacePressed := false
    config := { exhaustionDecay := 0.5, actionStaminaDecay := 3.0 }
    previousTime := none }

/-- handleConfigChange, src/App.tsx lines 63 to 69; the parseFloat of the
slider string is modelled as the already-parsed rational value. -/
def handleConfigChange (n : ParamName) (v : ℚ) (s : AppState) : AppState :=
  { s with config := setParameter n v s.config }

/-- resetStamina, src/App.tsx lines 71 to 74: restore both bars to CAP and
clear the previousTime ref. -/
def resetStamina (s : AppState) : AppState :=
  { s with
    stamina := { exhaustion := TOTAL_STAMINA, action := TOTAL_STAMINA }
    previousTime := none }

/-- handleKeyDown, src/App.tsx lines 77 to 82: set the flag on a Space
key-down that is not a key-repeat. -/
def handleKeyDown (isSpace isRepeat : Bool) (s : AppState) : AppState :=
  if isSpace && !isRepeat then { s with isSpacePressed := true } else s

/-- handleKeyUp, src/App.tsx lines 83 to 87: clear the flag on a Space
key-up. -/
def handleKeyUp (isSpace : Bool) (s : AppState) : AppState :=
  if isSpace then { s with isSpacePressed := false } else s

/-- The setStamina updater of src/App.tsx lines 105 to 122: decay the
exhaustion bar, clamp it to the cap interval, drain or recover the action
bar, and clamp the action bar to the already-decayed exhaustion. -/
def updateStamina (config : ConfigState) (pressed : Bool) (deltaTime : ℚ)
    (prev : StaminaState) : StaminaState :=
  let exhaustionChange := -config.exhaustionDecay
  let newExhaustion := prev.exhaustion + exhaustionChange * deltaTime
  let clampedExhaustion := Max.max 0 (Min.min TOTAL_STAMINA newExhaustion)
  let newAction :=
    if pressed then prev.action - config.actionStaminaDecay * deltaTime
    else prev.action + ACTION_STAMINA_RECOVERY_RATE * deltaTime
  let clampedAction := Max.max 0 (Min.min clampedExhaustion newAction)
  { exhaustion := clampedExhaustion, action := clampedAction }

/-- gameLoop, src/App.tsx lines 97 to 126: on the very first frame only the
baseline is recorded and the stamina state is left untouched; afterwards the
stamina pair is advanced by the elapsed time and the baseline moves on. -/
def gameLoop (currentTime : ℚ) (s : AppState) : AppState :=
  match s.previousTime with
  | none => { s with previousTime := some currentTime }
  | some p =>
      { s with
        stamina :=
          updateStamina s.config s.isSpacePressed (deltaTimeOf currentTime p) s.stamina
        previousTime := some currentTime }

/-- Gradient boundary of src/App.tsx line 141: the action bar as a
percentage of the exhaustion bar, guarded to 0 when exhaustion is not
positive. -/
def actionRelativeToExhaustionPercent (st : StaminaState) : ℚ :=
  if 0 < st.exhaustion then st.action / st.exhaustion * 100 else 0

/-- The documented state invariant for variant A. -/
def staminaInv (st : StaminaState) : Prop :=
  0 ≤ st.action ∧ st.action ≤ st.exhaustion ∧ st.exhaustion ≤ TOTAL_STAMINA

instance (st : StaminaState) : Decidable (staminaInv st) := by
  unfold staminaInv; infer_instance

/-- Both decay rates of the configuration are non-negative. -/
def nonnegConfig (c : ConfigState) : Prop :=
  0 ≤ c.exhaustionDecay ∧ 0 ≤ c.actionStaminaDecay

instance (c : ConfigState) : Decidable (nonnegConfig c) := by
  unfold nonnegConfig; infer_instance

/-- States of variant A reachable from the initial component state by any
interleaving of animation frames (with monotonic timestamps and non-negative
rates at each frame), resets, key events and slider edits. -/
inductive Reachable : AppState → Prop where
  | init : Reachable initialState
  | step (t : ℚ) (s : AppState) (hs : Reachable s)
      (hmono : ∀ p, s.previousTime = some p → p ≤ t)
      (hcfg : nonnegConfig s.config) :
      Reachable (gameLoop t s)
  | reset (s : AppState) (hs : Reachable s) : Reachable (resetStamina s)
  | keyDown (isSpace isRepeat : Bool) (s : AppState) (hs : Reachable s) :
      Reachable (handleKeyDown isSpace isRepeat s)
  | keyUp (isSpace : Bool) (s : AppState) (hs : Reachable s) :
      Reachable (handleKeyUp isSpace s)
  | configChange (n : ParamName) (v : ℚ) (s : AppState) (hs : Reachable s) :
      Reachable (handleConfigChange n v s)

end VariantA

namespace VariantB

/-- CAP constant, src/unnamed/part_000 line 3. -/
def TOTAL_STAMINA : ℚ := 100

/-- StaminaState, src/unnamed/part_000 lines 5 to 8. -/
structure StaminaState where
  max : ℚ
  current : ℚ
deriving DecidableEq, Repr

/-- ConfigState, src/unnamed/part_000 lines 10 to 14. -/
structure ConfigState where
  maxStaminaDecay : ℚ
  currentStaminaDecay : ℚ
  currentStaminaRecovery : ℚ
deriving DecidableEq, Repr

/-- The three slider names wired to handleConfigChange in variant B. -/
inductive ParamName where
  | maxStaminaDecay
  | currentStaminaDecay
  | currentStaminaRecovery
deriving DecidableEq, Repr

/-- Read one configuration field by its slider name. -/
def getParam : ParamName → ConfigState → ℚ
  | ParamName.maxStaminaDecay, c => c.maxStaminaDecay
  | ParamName.currentStaminaDecay, c => c.currentStaminaDecay
  | ParamName.currentStaminaRecovery, c => c.currentStaminaRecovery

/-- The spread-with-one-computed-key update of src/unnamed/part_000 lines
65 to 68: only the named field is replaced. -/
def setParameter : ParamName → ℚ → ConfigState → ConfigState
  | ParamName.maxStaminaDecay, v, c => { c with maxStaminaDecay := v }
  | ParamName.currentStaminaDecay, v, c => { c with currentStaminaDecay := v }
  | ParamName.currentStaminaRecovery, v, c => { c with currentStaminaRecovery := v }

/-- The whole mutable state of the App component in variant B. -/
structure AppState where
  stamina : StaminaState
  isSpacePressed : Bool
  config : ConfigState
  previousTime : Option ℚ
deriving DecidableEq, Repr

/-- Initial component state, src/unnamed/part_000 lines 47 to 56. -/
def initialState : AppState :=
  { stamina := { max := TOTAL_STAMINA, current := TOTAL_STAMINA }
    isSpacePressed := false
    config :=
      { maxStaminaDecay := 1.5, currentStaminaDecay := 30, currentStaminaRecovery := 20 }
    previousTime := none }

/-- handleConfigChange, src/unnamed/part_000 lines 63 to 69. -/
def handleConfigChange (n : ParamName) (v : ℚ) (s : AppState) : AppState :=
  { s with config := setParameter n v s.config }

/-- resetStamina, src/unnamed/part_000 lines 71 to 73: restore both bars to
CAP; the previousTime ref is NOT cleared here, unlike variant A. -/
def resetStamina (s : AppState) : AppState :=
  { s with stamina := { max := TOTAL_STAMINA, current := TOTAL_STAMINA } }

/-- handleKeyDown, src/unnamed/part_000 lines 76 to 81. -/
def handleKeyDown (isSpace isRepeat : Bool) (s : AppState) : AppState :=
  if isSpace && !isRepeat then { s with isSpacePressed := true } else s

/-- handleKeyUp, src/unnamed/part_000 lines 82 to 86. -/
def handleKeyUp (isSpace : Bool) (s : AppState) : AppState :=
  if isSpace then { s with isSpacePressed := false } else s

/-- The setStamina updater of src/unnamed/part_000 lines 102 to 115: decay
the ceiling (clamped below at 0 only), drain or recover the current bar, and
clamp the current bar to the already-decayed ceiling. -/
def updateStamina (config : ConfigState) (pressed : Bool) (deltaTime : ℚ)
    (prev : StaminaState) : StaminaState :=
  let newMax := Max.max 0 (prev.max - config.maxStaminaDecay * deltaTime)
  let rawCurrent :=
    if pressed then prev.current - config.currentStaminaDecay * deltaTime
    else prev.current + config.currentStaminaRecovery * deltaTime
  let newCurrent := Max.max 0 (Min.min rawCurrent newMax)
  { max := newMax, current := newCurrent }

/-- gameLoop, src/unnamed/part_000 lines 96 to 119: when the baseline ref is
undefined it is first set to the current time (so the frame proceeds with a
zero delta rather than returning early as variant A does), then the stamina
pair is advanced and the baseline moves on. -/
def gameLoop (currentTime : ℚ) (s : AppState) : AppState :=
  { s with
    stamina :=
      updateStamina s.config s.isSpacePressed
        (deltaTimeOf currentTime (s.previousTime.getD currentTime)) s.stamina
    previousTime := some currentTime }

/-- The documented state invariant for variant B. -/
def staminaInv (st : StaminaState) : Prop :=
  0 ≤ st.current ∧ st.current ≤ st.max ∧ st.max ≤ TOTAL_STAMINA

instance (st : StaminaState) : Decidable (staminaInv st) := by
  unfold staminaInv; infer_instance

/-- All three rates of the configuration are non-negative. -/
def nonnegConfig (c : ConfigState) : Prop :=
  0 ≤ c.maxStaminaDecay ∧ 0 ≤ c.currentStaminaDecay ∧ 0 ≤ c.currentStaminaRecovery

instance (c : ConfigState) : Decidable (nonnegConfig c) := by
  unfold nonnegConfig; infer_instance

/-- States of variant B reachable from the initial component state by any
interleaving of animation frames (with monotonic timestamps and non-negative
rates at each frame), resets, key events and slider edits. -/
inductive Reachable : AppState → Prop where
  | init : Reachable initialState
  | step (t : ℚ) (s : AppState) (hs : Reachable s)
      (hmono : ∀ p, s.previousTime = some p → p ≤ t)
      (hcfg : nonnegConfig s.config) :
      Reachable (gameLoop t s)
  | reset (s : AppState) (hs : Reachable s) : Reachable (resetStamina s)
  | keyDown (isSpace isRepeat : Bool) (s : AppState) (hs : Reachable s) :
      Reachable (handleKeyDown isSpace isRepeat s)
  | keyUp (isSpace : Bool) (s : AppState) (hs : Reachable s) :
      Reachable (handleKeyUp isSpace s)
  | configChange (n : ParamName) (v : ℚ) (s : AppState) (hs : Reachable s) :
      Reachable (handleConfigChange n v s)

end VariantB

namespace VariantA

/-- Concrete state used to exhibit a regressing clock: the stored baseline
is 2000 ms while the next frame arrives at 1000 ms. -/
def sampleRegress : AppState :=
  { stamina := { exhaustion := 50, action := 0 }
    isSpacePressed := false
    config := { exhaustionDecay := 1, actionStaminaDecay := 3 }
    previousTime := some 2000 }

end VariantA

namespace VariantB

/-- Concrete state with an established clock baseline, used to examine what
resetStamina does to the baseline in variant B. -/
def sampleState : AppState :=
  { stamina := { max := 100, current := 100 }
    isSpacePressed := false
    config := { maxStaminaDecay := 1.5, currentStaminaDecay := 30, currentStaminaRecovery := 20 }
    previousTime := some 0 }

/-- Rates of the drain and recover symmetry scenario of the spec: drain 30,
recovery 20, and no ceiling decay so that the ceiling stays at CAP. -/
def scenarioConfig : ConfigState :=
  { maxStaminaDecay := 0, currentStaminaDecay := 30, currentStaminaRecovery := 20 }

/-- Starting point of the symmetry scenario: both bars full, the drain input
held, and a baseline so that a frame at 1000 ms means 1.0 s elapsed. -/
def scenarioStart : AppState :=
  { stamina := { max := 100, current := 100 }
    isSpacePressed := true
    config := scenarioConfig
    previousTime := some 0 }

end VariantB

namespace VariantA

theorem updateStaminaA_inv (config : ConfigState) (pressed : Bool) (deltaTime : ℚ)
    (prev : StaminaState) : staminaInv (updateStamina config pressed deltaTime prev) := by
  dsimp only [updateStamina, staminaInv]
  refine ⟨le_max_left _ _, max_le (le_max_left _ _) (min_le_left _ _),
    max_le (by norm_num [TOTAL_STAMINA]) (min_le_left _ _)⟩

theorem reachableA_staminaInv (s : AppState) (h : Reachable s) : staminaInv s.stamina := by
  induction h with
  | init => decide
  | step t s hs hmono hcfg ih =>
      cases hp : s.previousTime with
      | none => simp only [gameLoop, hp]; exact ih
      | some p => simp only [gameLoop, hp]; exact updateStaminaA_inv _ _ _ _
  | reset s hs ih => simp only [resetStamina]; decide
  | keyDown isSpace isRepeat s hs ih =>
      unfold handleKeyDown; split <;> exact ih
  | keyUp isSpace s hs ih =>
      unfold handleKeyUp; split <;> exact ih
  | configChange n v s hs ih => exact ih

end VariantA

namespace VariantB

theorem updateStaminaB_inv (config : ConfigState) (pressed : Bool) (deltaTime : ℚ)
    (prev : StaminaState) (hprev : staminaInv prev)
    (hd : 0 ≤ config.maxStaminaDecay) (hdt : 0 ≤ deltaTime) :
    staminaInv (updateStamina config pressed deltaTime prev) := by
  obtain ⟨h0, hcm, hcap⟩ := hprev
  have hmul : 0 ≤ config.maxStaminaDecay * deltaTime := mul_nonneg hd hdt
  dsimp only [updateStamina, staminaInv]
  refine ⟨le_max_left _ _, max_le (le_max_left _ _) (min_le_right _ _),
    max_le (by norm_num [TOTAL_STAMINA]) ?_⟩
  have : prev.max - config.maxStaminaDecay * deltaTime ≤ prev.max := by linarith
  exact this.trans hcap

theorem reachableB_staminaInv (s : AppState) (h : Reachable s) : staminaInv s.stamina := by
  induction h with
  | init => decide
  | step t s hs hmono hcfg ih =>
      have hdt : 0 ≤ deltaTimeOf t (s.previousTime.getD t) := by
        cases hp : s.previousTime with
        | none => simp [deltaTimeOf, hp]
        | some p =>
            have hpt : p ≤ t := hmono p hp
            simp only [hp, Option.getD_some, deltaTimeOf]
            exact div_nonneg (sub_nonneg.mpr hpt) (by norm_num)
      simp only [gameLoop]
      exact updateStaminaB_inv _ _ _ _ ih hcfg.1 hdt
  | reset s hs ih => simp only [resetStamina]; decide
  | keyDown isSpace isRepeat s hs ih =>
      unfold handleKeyDown; split <;> exact ih
  | keyUp isSpace s hs ih =>
      unfold handleKeyUp; split <;> exact ih
  | configChange n v s hs ih => exact ih

end VariantB

theorem VariantA.updateStamina_exhaustion (c : VariantA.ConfigState) (b : Bool)
    (dt : ℚ) (prev : VariantA.StaminaState) :
    (VariantA.updateStamina c b dt prev).exhaustion =
      Max.max 0 (Min.min VariantA.TOTAL_STAMINA
        (prev.exhaustion + -c.exhaustionDecay * dt)) := rfl

theorem VariantA.updateStamina_action_inactive (c : VariantA.ConfigState)
    (dt : ℚ) (prev : VariantA.StaminaState) :
    (VariantA.updateStamina c false dt prev).action =
      Max.max 0 (Min.min (VariantA.updateStamina c false dt prev).exhaustion
        (prev.action + VariantA.ACTION_STAMINA_RECOVERY_RATE * dt)) := rfl

theorem VariantB.updateStamina_max (c : VariantB.ConfigState) (b : Bool)
    (dt : ℚ) (prev : VariantB.StaminaState) :
    (VariantB.updateStamina c b dt prev).max =
      Max.max 0 (prev.max - c.maxStaminaDecay * dt) := rfl

theorem VariantB.updateStamina_current_inactive (c : VariantB.ConfigState)
    (dt : ℚ) (prev : VariantB.StaminaState) :
    (VariantB.updateStamina c false dt prev).current =
      Max.max 0 (Min.min (prev.current + c.currentStaminaRecovery * dt)
        ((VariantB.updateStamina c false dt prev).max)) := rfl

theorem VariantB.updateStamina_zero_delta (config : VariantB.ConfigState)
    (pressed : Bool) (prev : VariantB.StaminaState) (h : VariantB.staminaInv prev) :
    VariantB.updateStamina config pressed 0 prev = prev := by
  cases prev with
  | mk m cur =>
    obtain ⟨h0, hcm, hcap⟩ := h
    have hm : (0:ℚ) ≤ m := le_trans h0 hcm
    dsimp only [VariantB.updateStamina]
    cases pressed <;>
      simp [max_eq_right hm, min_eq_left hcm, max_eq_right h0]

/-- Claim C1: every state reachable from the initial one by any sequence of
frame steps (with non-negative rates and monotonic timestamps), resets, key
events and slider edits satisfies 0 ≤ secondary ≤ primary ≤ CAP, in both
variants of the prototype. -/
theorem reachable_states_satisfy_stamina_invariant :
    (∀ s : VariantA.AppState, VariantA.Reachable s → VariantA.staminaInv s.stamina) ∧
    (∀ s : VariantB.AppState, VariantB.Reachable s → VariantB.staminaInv s.stamina) :=
  ⟨VariantA.reachableA_staminaInv, VariantB.reachableB_staminaInv⟩

/-- Witness for C1: the invariant holds at the concrete state reached by one
animation frame from the initial state, in both variants. -/
theorem reachable_states_satisfy_stamina_invariant_witness :
    VariantA.staminaInv (VariantA.gameLoop 16 VariantA.initialState).stamina ∧
    VariantB.staminaInv (VariantB.gameLoop 16 VariantB.initialState).stamina :=
  ⟨reachable_states_satisfy_stamina_invariant.1 _
      (VariantA.Reachable.step 16 _ VariantA.Reachable.init
        (fun p hp => by simp [VariantA.initialState] at hp)
        (by norm_num [VariantA.nonnegConfig, VariantA.initialState])),
    reachable_states_satisfy_stamina_invariant.2 _
      (VariantB.Reachable.step 16 _ VariantB.Reachable.init
        (fun p hp => by simp [VariantB.initialState] at hp)
        (by norm_num [VariantB.nonnegConfig, VariantB.initialState]))⟩

/-- Counterexample to C2 as stated: in variant B, resetStamina keeps the
stored clock baseline (here some 0) instead of clearing it to unset. -/
theorem reset_variantB_keeps_baseline_counterexample :
    (VariantB.resetStamina VariantB.sampleState).previousTime = some 0 ∧
    (VariantB.resetStamina VariantB.sampleState).previousTime ≠ none :=
  ⟨rfl, fun h => Option.noConfusion h⟩

/-- Claim C2 amended: reset restores both quantities to CAP in both
variants; variant A additionally clears the clock baseline to unset, so its
next frame is a fresh first frame that leaves the full bars untouched, while
variant B leaves the baseline exactly as it was. -/
theorem reset_restores_cap_and_baseline_per_variant :
    (∀ s : VariantA.AppState,
        (VariantA.resetStamina s).stamina =
          { exhaustion := VariantA.TOTAL_STAMINA, action := VariantA.TOTAL_STAMINA } ∧
        (VariantA.resetStamina s).previousTime = none ∧
        ∀ t : ℚ, (VariantA.gameLoop t (VariantA.resetStamina s)).stamina =
          { exhaustion := VariantA.TOTAL_STAMINA, action := VariantA.TOTAL_STAMINA }) ∧
    (∀ s : VariantB.AppState,
        (VariantB.resetStamina s).stamina =
          { max := VariantB.TOTAL_STAMINA, current := VariantB.TOTAL_STAMINA } ∧
        (VariantB.resetStamina s).previousTime = s.previousTime) :=
  ⟨fun s => ⟨rfl, rfl, fun t => rfl⟩, fun s => ⟨rfl, rfl⟩⟩

/-- Counterexample to C3 as stated: with the stored baseline at 2000 ms and
the next frame at 1000 ms, the elapsed value used by the update is -1 s, not
a clamped 0, and it propagates into the state: the exhaustion bar grows from
50 to 51 in that frame. -/
theorem negative_elapsed_propagates_counterexample :
    deltaTimeOf 1000 2000 = -1 ∧
    ¬ (0 ≤ deltaTimeOf 1000 2000) ∧
    (VariantA.gameLoop 1000 VariantA.sampleRegress).stamina.exhaustion = 51 := by
  refine ⟨by norm_num [deltaTimeOf], by norm_num [deltaTimeOf], ?_⟩
  norm_num [VariantA.gameLoop, VariantA.sampleRegress, VariantA.updateStamina,
    VariantA.TOTAL_STAMINA, VariantA.ACTION_STAMINA_RECOVERY_RATE,
    deltaTimeOf, max_def, min_def]

/-- Claim C3 amended: the code performs no clamp on the frame delta; when
the clock regresses, the elapsed value fed to the state update is strictly
negative rather than zero. -/
theorem elapsed_is_negative_when_clock_regresses (now prevT : ℚ) (h : now < prevT) :
    deltaTimeOf now prevT < 0 := by
  unfold deltaTimeOf
  exact div_neg_of_neg_of_pos (sub_neg.mpr h) (by norm_num)

/-- Witness for the amended C3 at the concrete regression 1000 ms after a
2000 ms baseline. -/
theorem elapsed_is_negative_when_clock_regresses_witness :
    deltaTimeOf 1000 2000 < 0 :=
  elapsed_is_negative_when_clock_regresses 1000 2000 (by norm_num)

/-- Claim C4: in both variants the committed secondary lies in the interval
from 0 to the primary value after that same step's decay; and whenever the
decayed primary drops below the pre-step secondary while the input is
inactive, the committed secondary equals the new primary even though the
recovery rate alone would have increased it. -/
theorem secondary_clamped_to_postdecay_primary :
    (∀ (c : VariantA.ConfigState) (b : Bool) (dt : ℚ) (prev : VariantA.StaminaState),
        0 ≤ (VariantA.updateStamina c b dt prev).action ∧
        (VariantA.updateStamina c b dt prev).action ≤
          (VariantA.updateStamina c b dt prev).exhaustion) ∧
    (∀ (c : VariantA.ConfigState) (dt : ℚ) (prev : VariantA.StaminaState),
        0 ≤ dt →
        (VariantA.updateStamina c false dt prev).exhaustion < prev.action →
        (VariantA.updateStamina c false dt prev).action =
          (VariantA.updateStamina c false dt prev).exhaustion) ∧
    (∀ (c : VariantB.ConfigState) (b : Bool) (dt : ℚ) (prev : VariantB.StaminaState),
        0 ≤ (VariantB.updateStamina c b dt prev).current ∧
        (VariantB.updateStamina c b dt prev).current ≤
          (VariantB.updateStamina c b dt prev).max) ∧
    (∀ (c : VariantB.ConfigState) (dt : ℚ) (prev : VariantB.StaminaState),
        0 ≤ dt → 0 ≤ c.currentStaminaRecovery →
        (VariantB.updateStamina c false dt prev).max < prev.current →
        (VariantB.updateStamina c false dt prev).current =
          (VariantB.updateStamina c false dt prev).max) := by
  refine ⟨fun c b dt prev => ?_, fun c dt prev hdt hlt => ?_,
    fun c b dt prev => ?_, fun c dt prev hdt hr hlt => ?_⟩
  · have h := VariantA.updateStaminaA_inv c b dt prev
    exact ⟨h.1, h.2.1⟩
  · rw [VariantA.updateStamina_action_inactive]
    have hrec : (0:ℚ) ≤ VariantA.ACTION_STAMINA_RECOVERY_RATE * dt :=
      mul_nonneg (by norm_num [VariantA.ACTION_STAMINA_RECOVERY_RATE]) hdt
    have h1 : (VariantA.updateStamina c false dt prev).exhaustion ≤
        prev.action + VariantA.ACTION_STAMINA_RECOVERY_RATE * dt := by
      have h2 := hlt.le
      linarith
    rw [min_eq_left h1]
    have h0 : (0:ℚ) ≤ (VariantA.updateStamina c false dt prev).exhaustion := by
      rw [VariantA.updateStamina_exhaustion]; exact le_max_left _ _
    exact max_eq_right h0
  · dsimp only [VariantB.updateStamina]
    exact ⟨le_max_left _ _, max_le (le_max_left _ _) (min_le_right _ _)⟩
  · rw [VariantB.updateStamina_current_inactive]
    have hrec : (0:ℚ) ≤ c.currentStaminaRecovery * dt := mul_nonneg hr hdt
    have h1 : (VariantB.updateStamina c false dt prev).max ≤
        prev.current + c.currentStaminaRecovery * dt := by
      have h2 := hlt.le
      linarith
    rw [min_eq_right h1]
    have h0 : (0:ℚ) ≤ (VariantB.updateStamina c false dt prev).max := by
      rw [VariantB.updateStamina_max]; exact le_max_left _ _
    exact max_eq_right h0

/-- Witness for C4: concrete bleed-down steps in both variants in which the
decayed primary (40) falls below the pre-step secondary while the input is
inactive, and the committed secondary lands exactly on the new primary. -/
theorem secondary_clamped_to_postdecay_primary_witness :
    ((VariantA.updateStamina { exhaustionDecay := 10, actionStaminaDecay := 3 } false 1
        { exhaustion := 50, action := 50 }).action =
      (VariantA.updateStamina { exhaustionDecay := 10, actionStaminaDecay := 3 } false 1
        { exhaustion := 50, action := 50 }).exhaustion) ∧
    ((VariantB.updateStamina
        { maxStaminaDecay := 10, currentStaminaDecay := 30, currentStaminaRecovery := 20 }
        false 1 { max := 50, current := 45 }).current =
      (VariantB.updateStamina
        { maxStaminaDecay := 10, currentStaminaDecay := 30, currentStaminaRecovery := 20 }
        false 1 { max := 50, current := 45 }).max) :=
  ⟨secondary_clamped_to_postdecay_primary.2.1 _ _ _ (by norm_num)
      (by norm_num [VariantA.updateStamina_exhaustion, VariantA.TOTAL_STAMINA,
        max_def, min_def]),
    secondary_clamped_to_postdecay_primary.2.2.2 _ _ _ (by norm_num) (by norm_num)
      (by norm_num [VariantB.updateStamina_max, max_def])⟩

/-- Counterexample to C5 as stated: in variant B the baseline survives
resetStamina, so the very first step after a reset advances the simulation
by the real elapsed time (1 s here) and changes the stamina state. -/
theorem first_step_after_reset_variantB_counterexample :
    (VariantB.gameLoop 1000 (VariantB.resetStamina VariantB.sampleState)).stamina ≠
      (VariantB.resetStamina VariantB.sampleState).stamina := by
  norm_num [VariantB.gameLoop, VariantB.resetStamina, VariantB.sampleState,
    VariantB.updateStamina, VariantB.TOTAL_STAMINA, deltaTimeOf, max_def, min_def]

/-- Claim C5 amended: the very first step after construction leaves the
stamina state unchanged and only records the baseline, in both variants
(variant A returns early, variant B takes a zero-delta step); the first step
after reset is likewise a no-op in variant A, but in variant B reset keeps
the old baseline, so that step advances by the real elapsed time. -/
theorem first_tick_noop_except_variantB_reset :
    (∀ (t : ℚ) (s : VariantA.AppState), s.previousTime = none →
        (VariantA.gameLoop t s).stamina = s.stamina ∧
        (VariantA.gameLoop t s).previousTime = some t) ∧
    (∀ (t : ℚ) (s : VariantA.AppState),
        (VariantA.gameLoop t (VariantA.resetStamina s)).stamina =
          (VariantA.resetStamina s).stamina) ∧
    (∀ (t : ℚ) (s : VariantB.AppState), s.previousTime = none →
        VariantB.staminaInv s.stamina →
        (VariantB.gameLoop t s).stamina = s.stamina ∧
        (VariantB.gameLoop t s).previousTime = some t) := by
  refine ⟨fun t s h => ?_, fun t s => rfl, fun t s h hinv => ?_⟩
  · constructor <;> simp only [VariantA.gameLoop, h]
  · constructor
    · simp only [VariantB.gameLoop, h, Option.getD_none]
      have hz : deltaTimeOf t t = 0 := by simp [deltaTimeOf]
      rw [hz, VariantB.updateStamina_zero_delta _ _ _ hinv]
    · simp only [VariantB.gameLoop]

/-- Witness for the amended C5: the first frame after construction changes
neither variant's stamina state. -/
theorem first_tick_noop_except_variantB_reset_witness :
    (VariantA.gameLoop 5 VariantA.initialState).stamina = VariantA.initialState.stamina ∧
    (VariantB.gameLoop 5 VariantB.initialState).stamina = VariantB.initialState.stamina :=
  ⟨(first_tick_noop_except_variantB_reset.1 5 _ rfl).1,
    (first_tick_noop_except_variantB_reset.2.2 5 _ rfl
      (by norm_num [VariantB.staminaInv, VariantB.initialState, VariantB.TOTAL_STAMINA])).1⟩

/-- Claim C6: starting from both bars at 100 with drain rate 30, recovery
rate 20 and no ceiling decay, one active step of 1.0 s yields secondary 70,
and a following inactive step of 1.0 s yields secondary 90. -/
theorem drain_recover_symmetry_scenario :
    (VariantB.gameLoop 1000 VariantB.scenarioStart).stamina.current = 70 ∧
    (VariantB.gameLoop 2000 (VariantB.handleKeyUp true
        (VariantB.gameLoop 1000 VariantB.scenarioStart))).stamina.current = 90 := by
  constructor <;>
    norm_num [VariantB.gameLoop, VariantB.scenarioStart, VariantB.scenarioConfig,
      VariantB.handleKeyUp, VariantB.updateStamina, deltaTimeOf, max_def, min_def]

/-- Claim C7: with the input inactive and a positive primary decay rate, an
animation frame with a monotonic timestamp never increases the primary
quantity of an invariant-satisfying state, in either variant; applied at
each consecutive pair of a run, primary is non-increasing over any such
sequence of steps. -/
theorem primary_never_increases_without_input :
    (∀ (t : ℚ) (s : VariantA.AppState),
        s.isSpacePressed = false → 0 < s.config.exhaustionDecay →
        VariantA.staminaInv s.stamina →
        (∀ p, s.previousTime = some p → p ≤ t) →
        (VariantA.gameLoop t s).stamina.exhaustion ≤ s.stamina.exhaustion) ∧
    (∀ (t : ℚ) (s : VariantB.AppState),
        s.isSpacePressed = false → 0 < s.config.maxStaminaDecay →
        VariantB.staminaInv s.stamina →
        (∀ p, s.previousTime = some p → p ≤ t) →
        (VariantB.gameLoop t s).stamina.max ≤ s.stamina.max) := by
  constructor
  · intro t s hb hd hinv hmono
    cases hp : s.previousTime with
    | none => simp [VariantA.gameLoop, hp]
    | some p =>
        have hdt : 0 ≤ deltaTimeOf t p :=
          div_nonneg (sub_nonneg.mpr (hmono p hp)) (by norm_num)
        have h0e : (0:ℚ) ≤ s.stamina.exhaustion := le_trans hinv.1 hinv.2.1
        have hmul : 0 ≤ s.config.exhaustionDecay * deltaTimeOf t p :=
          mul_nonneg hd.le hdt
        simp only [VariantA.gameLoop, hp]
        rw [VariantA.updateStamina_exhaustion]
        refine max_le h0e (le_trans (min_le_right _ _) ?_)
        linarith
  · intro t s hb hd hinv hmono
    have hdt : 0 ≤ deltaTimeOf t (s.previousTime.getD t) := by
      cases hp : s.previousTime with
      | none => simp [deltaTimeOf]
      | some p =>
          simp only [Option.getD_some]
          exact div_nonneg (sub_nonneg.mpr (hmono p hp)) (by norm_num)
    have h0m : (0:ℚ) ≤ s.stamina.max := le_trans hinv.1 hinv.2.1
    have hmul : 0 ≤ s.config.maxStaminaDecay * deltaTimeOf t (s.previousTime.getD t) :=
      mul_nonneg hd.le hdt
    simp only [VariantB.gameLoop]
    rw [VariantB.updateStamina_max]
    refine max_le h0m ?_
    linarith

/-- Witness for C7: one concrete inactive frame at a later timestamp in each
variant, with a positive decay rate; the primary quantity does not grow. -/
theorem primary_never_increases_without_input_witness :
    (VariantA.gameLoop 3000 VariantA.sampleRegress).stamina.exhaustion ≤
      VariantA.sampleRegress.stamina.exhaustion ∧
    (VariantB.gameLoop 1000 VariantB.sampleState).stamina.max ≤
      VariantB.sampleState.stamina.max :=
  ⟨primary_never_increases_without_input.1 3000 _ rfl
      (by norm_num [VariantA.sampleRegress])
      (by norm_num [VariantA.staminaInv, VariantA.sampleRegress, VariantA.TOTAL_STAMINA])
      (fun p hp => by
        simp only [VariantA.sampleRegress, Option.some.injEq] at hp
        linarith),
    primary_never_increases_without_input.2 1000 _ rfl
      (by norm_num [VariantB.sampleState])
      (by norm_num [VariantB.staminaInv, VariantB.sampleState, VariantB.TOTAL_STAMINA])
      (fun p hp => by
        simp only [VariantB.sampleState, Option.some.injEq] at hp
        linarith)⟩

/-- Claim C8: resetStamina is idempotent on the full component state (clock
baseline included) and leaves the configuration and the input flag
untouched, in both variants. -/
theorem reset_idempotent_and_preserves_config_input :
    (∀ s : VariantA.AppState,
        VariantA.resetStamina (VariantA.resetStamina s) = VariantA.resetStamina s ∧
        (VariantA.resetStamina s).config = s.config ∧
        (VariantA.resetStamina s).isSpacePressed = s.isSpacePressed) ∧
    (∀ s : VariantB.AppState,
        VariantB.resetStamina (VariantB.resetStamina s) = VariantB.resetStamina s ∧
        (VariantB.resetStamina s).config = s.config ∧
        (VariantB.resetStamina s).isSpacePressed = s.isSpacePressed) :=
  ⟨fun s => ⟨rfl, rfl, rfl⟩, fun s => ⟨rfl, rfl, rfl⟩⟩

/-- Claim C9: a configuration-change event for one named slider replaces
exactly the field with that name by the parsed value and keeps every other
configuration field, as well as the rest of the component state, unchanged,
in both variants. -/
theorem config_change_updates_only_named_field :
    (∀ (n m : VariantA.ParamName) (v : ℚ) (s : VariantA.AppState),
        (VariantA.getParam m (VariantA.handleConfigChange n v s).config =
          if m = n then v else VariantA.getParam m s.config) ∧
        (VariantA.handleConfigChange n v s).stamina = s.stamina ∧
        (VariantA.handleConfigChange n v s).isSpacePressed = s.isSpacePressed ∧
        (VariantA.handleConfigChange n v s).previousTime = s.previousTime) ∧
    (∀ (n m : VariantB.ParamName) (v : ℚ) (s : VariantB.AppState),
        (VariantB.getParam m (VariantB.handleConfigChange n v s).config =
          if m = n then v else VariantB.getParam m s.config) ∧
        (VariantB.handleConfigChange n v s).stamina = s.stamina ∧
        (VariantB.handleConfigChange n v s).isSpacePressed = s.isSpacePressed ∧
        (VariantB.handleConfigChange n v s).previousTime = s.previousTime) := by
  constructor
  · intro n m v s
    refine ⟨?_, rfl, rfl, rfl⟩
    cases n <;> cases m <;>
      simp [VariantA.getParam, VariantA.handleConfigChange, VariantA.setParameter]
  · intro n m v s
    refine ⟨?_, rfl, rfl, rfl⟩
    cases n <;> cases m <;>
      simp [VariantB.getParam, VariantB.handleConfigChange, VariantB.setParameter]

/-- Claim C10: in variant A, the gradient percentage of action relative to
exhaustion is guarded against division by zero: any state whose exhaustion
is 0 is rendered as 0 percent. -/
theorem zero_exhaustion_percent_guard (st : VariantA.StaminaState)
    (h : st.exhaustion = 0) :
    VariantA.actionRelativeToExhaustionPercent st = 0 := by
  unfold VariantA.actionRelativeToExhaustionPercent
  rw [h]
  norm_num

/-- Witness for C10 at the fully decayed state with exhaustion 0 and a
nonzero action value. -/
theorem zero_exhaustion_percent_guard_witness :
    VariantA.actionRelativeToExhaustionPercent { exhaustion := 0, action := 5 } = 0 :=
  zero_exhaustion_percent_guard { exhaustion := 0, action := 5 } rfl
